import Mathlib

/-
Verification of the bulk WhatsApp dispatch engine of the GaadiMech CRM
backend.  The definitions below are a shallow embedding of the Python
sources: `src/teleobi_client.py` (rate limiter, quality metrics, client
send path) and `src/application.py` (bulk-job dispatcher, recovery,
cancellation and status reconciliation).  Python floats are modelled as
rationals, timestamps as rationals or naturals, and the time-dependent
or I/O-dependent results of calls (clock readings, provider responses,
database cancellation flags) are passed in explicitly as environment
parameters.
-/

namespace CRM

/-! ## teleobi_client.py — `TeleobiRateLimiter` -/

/-- The four per-window limits of one account tier
(`TeleobiRateLimiter.TIER_LIMITS[t]`); `per_day = none` models Python
`None` (unlimited). -/
structure Limits where
  per_second : ℚ
  per_minute : ℚ
  per_hour : ℚ
  per_day : Option ℚ
deriving Repr, DecidableEq

/-- `TIER_LIMITS` from `teleobi_client.py` lines 70-75; unknown tiers
fall back to tier 1 as in `TIER_LIMITS.get(tier, TIER_LIMITS[1])`. -/
def TIER_LIMITS : ℕ → Limits
  | 1 => ⟨1/2, 20, 1000, some 1000⟩
  | 2 => ⟨1, 50, 5000, some 10000⟩
  | 3 => ⟨2, 100, 50000, some 100000⟩
  | 4 => ⟨5, 300, 500000, none⟩
  | _ => ⟨1/2, 20, 1000, some 1000⟩

/-- The limiter's mutable state: the four lists of send timestamps
(`secondly_sends`, `minutely_sends`, `hourly_sends`, `daily_sends`),
kept in append order as in the Python lists. -/
structure LimiterState where
  secondly_sends : List ℚ
  minutely_sends : List ℚ
  hourly_sends : List ℚ
  daily_sends : List ℚ
deriving Repr, DecidableEq

/-- `TeleobiRateLimiter._clean_old_entries`: drop entries whose age
`now - t` has reached the window duration. -/
def clean_old_entries (now : ℚ) (s : LimiterState) : LimiterState where
  secondly_sends := s.secondly_sends.filter (fun t => decide (now - t < 1))
  minutely_sends := s.minutely_sends.filter (fun t => decide (now - t < 60))
  hourly_sends := s.hourly_sends.filter (fun t => decide (now - t < 3600))
  daily_sends := s.daily_sends.filter (fun t => decide (now - t < 86400))

/-- The wait computed for one window in `can_send`:
`dur - (now - window[0])` when the window is nonempty, else `dur`
(mirrors `1.0 - (now - self.secondly_sends[0]) if self.secondly_sends
else 1.0` and the analogous lines for the other windows). -/
def window_wait (window : List ℚ) (dur now : ℚ) : ℚ :=
  match window with
  | [] => dur
  | t :: _ => dur - (now - t)

/-- Truthiness of the `per_day` limit in
`if self.limits["per_day"] and len(...) >= self.limits["per_day"]`:
Python `None` and `0` are falsy. -/
def per_day_blocks (limit : Option ℚ) (used : ℕ) : Bool :=
  match limit with
  | none => false
  | some d => decide (d ≠ 0) && decide ((used : ℚ) ≥ d)

/-- `TeleobiRateLimiter.can_send` (teleobi_client.py lines 121-154):
clean the windows, then check second, minute, hour, day in that order
and return on the FIRST window at capacity, with wait
`max 0.1 (dur - (now - window[0]))`. -/
def can_send (limits : Limits) (now : ℚ) (st : LimiterState) : Bool × Option ℚ :=
  let s := clean_old_entries now st
  if (s.secondly_sends.length : ℚ) ≥ limits.per_second then
    (false, some (max (1/10) (window_wait s.secondly_sends 1 now)))
  else if (s.minutely_sends.length : ℚ) ≥ limits.per_minute then
    (false, some (max (1/10) (window_wait s.minutely_sends 60 now)))
  else if (s.hourly_sends.length : ℚ) ≥ limits.per_hour then
    (false, some (max (1/10) (window_wait s.hourly_sends 3600 now)))
  else if per_day_blocks limits.per_day s.daily_sends.length then
    (false, some (max (1/10) (window_wait s.daily_sends 86400 now)))
  else
    (true, none)

/-- `TeleobiRateLimiter.record_send`: append `now` to all four windows. -/
def record_send (now : ℚ) (s : LimiterState) : LimiterState where
  secondly_sends := s.secondly_sends ++ [now]
  minutely_sends := s.minutely_sends ++ [now]
  hourly_sends := s.hourly_sends ++ [now]
  daily_sends := s.daily_sends ++ [now]

/-- The limiter state of a freshly constructed `TeleobiRateLimiter`. -/
def emptyLimiter : LimiterState := ⟨[], [], [], []⟩

/-! ## teleobi_client.py — quality metrics and admission -/

/-- The process-local `TeleobiClient.quality_metrics` counters. -/
structure QualityMetrics where
  total_sends : ℕ
  successful_sends : ℕ
  failed_sends : ℕ
  rate_limit_hits : ℕ
  last_error : Option String
deriving Repr, DecidableEq

/-- The `success_rate` field computed by
`TeleobiClient.get_quality_metrics` (teleobi_client.py lines 813-823):
`successful_sends / total_sends` when `total_sends > 0`, else `0.0`. -/
def quality_success_rate (m : QualityMetrics) : ℚ :=
  if 0 < m.total_sends then (m.successful_sends : ℚ) / (m.total_sends : ℚ) else 0

/-- The quality-gate rejection test of `api_send_bulk_whatsapp`
(application.py line 5689): reject with an admission error (HTTP 400,
before the job row is created and before any dispatcher thread is
started) iff `total_sends > 10 and success_rate < 0.3`. -/
def admission_quality_rejects (m : QualityMetrics) : Bool :=
  decide (10 < m.total_sends) && decide (quality_success_rate m < 3/10)

/-! ## teleobi_client.py — phone cleaning/validation and the send path -/

/-- `TeleobiClient._clean_phone_number` (teleobi_client.py lines
751-761): keep only digit characters; if exactly 10 digits remain,
prepend the country code `"91"`. -/
def clean_phone_number (phone : String) : String :=
  let cleaned := String.mk (phone.data.filter Char.isDigit)
  if cleaned.length = 10 then "91" ++ cleaned else cleaned

/-- `TeleobiClient._validate_before_send` (teleobi_client.py lines
716-749).  The result of the rate limiter call it performs is passed in
as `rate_check`. -/
def validate_before_send (phone template_name : String)
    (rate_check : Bool × Option ℚ) (m : QualityMetrics) : Bool × String :=
  if phone = "" then (false, "Phone number is required")
  else
    let cleaned := clean_phone_number phone
    if cleaned.length < 10 ∨ cleaned.length > 15 then
      (false, "Invalid phone number format")
    else if (cleaned.data.all Char.isDigit) = false then
      (false, "Phone number must contain only digits")
    else if template_name = "" then (false, "Template name is required")
    else if rate_check.1 = false then (false, "Rate limit reached")
    else if 0 < m.total_sends ∧ (m.failed_sends : ℚ) / (m.total_sends : ℚ) > 1/2 then
      (false, "High failure rate detected")
    else (true, "")

/-- The environment of one `send_template_message` call: the values
returned by its rate-limiter calls and by the provider HTTP request. -/
structure SendCallEnv where
  validate_rate : Bool × Option ℚ
  send_rate1 : Bool × Option ℚ
  send_rate2 : Bool × Option ℚ
  provider_ok : Bool
  provider_wa_id : Option String
deriving Repr

/-- Result of a modelled `send_template_message` call:
`provider_called` is the phone number the provider endpoint was invoked
with (`none` when the call was never made). -/
structure SendAttempt where
  result_success : Bool
  provider_called : Option String
  error_message : Option String
deriving Repr, DecidableEq

/-- The part of `TeleobiClient.send_template_message` after the
validation gate: rate-limit check (with one re-check after waiting),
phone cleaning, template-id requirement, then the provider call. -/
def send_after_validation (env : SendCallEnv) (phone : String)
    (template_id : Option String) : SendAttempt :=
  let proceed : SendAttempt :=
    let cleaned := clean_phone_number phone
    match template_id with
    | none => ⟨false, none, some "Template ID is required. Please sync templates first."⟩
    | some _ =>
      if env.provider_ok then ⟨true, some cleaned, none⟩
      else ⟨false, some cleaned, some "provider error"⟩
  if env.send_rate1.1 then proceed
  else if env.send_rate2.1 then proceed
  else ⟨false, none, some "Rate limit exceeded."⟩

/-- `TeleobiClient.send_template_message` (teleobi_client.py lines
521-714), at the granularity of its control flow: when
`validate_before` is set, a failed `_validate_before_send` short-cuts
the call with no provider request. -/
def send_template_message (env : SendCallEnv) (phone template_name : String)
    (template_id : Option String) (m : QualityMetrics)
    (validate_before : Bool) : SendAttempt :=
  if validate_before then
    match validate_before_send phone template_name env.validate_rate m with
    | (false, msg) => ⟨false, none, some msg⟩
    | (true, _) => send_after_validation env phone template_id
  else send_after_validation env phone template_id

/-! ## application.py — the bulk-send job and its dispatcher -/

/-- The `status` column of `WhatsAppBulkJob`; the terminal state the
spec calls "partial" is the string `'partial'` in the source, rendered
here as `part_complete` (the word is reserved in Lean). -/
inductive JobStatus
  | pending
  | processing
  | completed
  | part_complete
  | failed
  | cancelled
deriving Repr, DecidableEq

/-- The mutable columns of a `WhatsAppBulkJob` row that the dispatcher
reads and writes (models.py lines 301-330); timestamps are naturals. -/
structure BulkJob where
  status : JobStatus
  total_recipients : ℕ
  processed_count : ℕ
  sent_count : ℕ
  failed_count : ℕ
  started_at : Option ℕ
  completed_at : Option ℕ
deriving Repr, DecidableEq

/-- What the environment makes of one recipient attempt inside the
per-recipient `try` block of `process_bulk_whatsapp_job`:
`no_phone` — phone resolution yields nothing (line 5844);
`no_template` — the template cache lookup or its id is missing
(lines 5859-5874); `send_ok` / `send_fail` — the provider send
succeeds / returns failure; `exn` — an exception is raised inside the
body and caught by the per-recipient handler (line 5945). -/
inductive RecipientOutcome
  | no_phone
  | no_template
  | send_ok
  | send_fail
  | exn
deriving Repr, DecidableEq

/-- Environment of one dispatcher run: the outcome of each recipient
index, the loop index from which a database refresh observes the job
as cancelled (`none` if it is never cancelled), whether
`get_teleobi_client()` returns a client, and the clock value used for
the timestamps the run writes. -/
structure DispatchEnv where
  outcome : ℕ → RecipientOutcome
  cancel_visible_from : Option ℕ
  client_available : Bool
  now : ℕ

/-- Whether a `db.session.refresh` performed at loop index `i` sees the
externally written `cancelled` status. -/
def cancelVisible (env : DispatchEnv) (i : ℕ) : Bool :=
  match env.cancel_visible_from with
  | none => false
  | some c => decide (c ≤ i)

/-- The cancellation polling condition of the loop (application.py
line 5819): with `processed_count = index + 1`, the job status is
re-read from the store iff `processed_count % 10 == 0` or
`processed_count == start_index + 1` (the first iteration of the run). -/
def check_fires (s i : ℕ) : Bool :=
  decide ((i + 1) % 10 = 0) || decide (i = s)

/-- The running state of one dispatcher loop: the persisted job row
(after the last commit), the local `sent_count` / `failed_count`
variables, the list of all committed job snapshots (oldest first, the
pre-loop `processing` commit included), and the list of recipient
indices whose per-recipient body was entered. -/
structure LoopState where
  job : BulkJob
  sent : ℕ
  failed : ℕ
  trace : List BulkJob
  touched : List ℕ
deriving Repr, DecidableEq

/-- How a dispatcher loop ended: stopped by an observed cancellation,
or ran past the final index. -/
inductive LoopExit
  | cancelled_stop
  | finished
deriving Repr, DecidableEq

/-- One iteration of the per-recipient loop of
`process_bulk_whatsapp_job` (application.py lines 5814-5966) at index
`i`, with resume offset `s`.  Returns the new state and `true` when the
loop continues.  Persisted-field effects, path by path:
cancellation observed — status/`completed_at` committed, loop stops;
`no_phone` — only the local `failed_count` variable changes, nothing is
committed; `no_template` — `failed_count` is committed WITHOUT
`processed_count`; `send_ok` — `sent_count` and `processed_count :=
i+1` committed; `send_fail` and `exn` — `failed_count` and
`processed_count := i+1` committed. -/
def dispatch_step (env : DispatchEnv) (s i : ℕ) (st : LoopState) :
    LoopState × Bool :=
  if check_fires s i && cancelVisible env i then
    let j := { st.job with
      status := JobStatus.cancelled
      completed_at := some env.now }
    ({ st with job := j, trace := st.trace ++ [j] }, false)
  else
    let st1 := { st with touched := st.touched ++ [i] }
    match env.outcome i with
    | RecipientOutcome.no_phone =>
        ({ st1 with failed := st1.failed + 1 }, true)
    | RecipientOutcome.no_template =>
        let j := { st1.job with failed_count := st1.failed + 1 }
        ({ st1 with
           failed := st1.failed + 1
           job := j
           trace := st1.trace ++ [j] }, true)
    | RecipientOutcome.send_ok =>
        let j := { st1.job with
          sent_count := st1.sent + 1
          processed_count := i + 1 }
        ({ st1 with
           sent := st1.sent + 1
           job := j
           trace := st1.trace ++ [j] }, true)
    | RecipientOutcome.send_fail =>
        let j := { st1.job with
          failed_count := st1.failed + 1
          processed_count := i + 1 }
        ({ st1 with
           failed := st1.failed + 1
           job := j
           trace := st1.trace ++ [j] }, true)
    | RecipientOutcome.exn =>
        let j := { st1.job with
          failed_count := st1.failed + 1
          processed_count := i + 1 }
        ({ st1 with
           failed := st1.failed + 1
           job := j
           trace := st1.trace ++ [j] }, true)

/-- The per-recipient loop `for index in range(start_index,
total_recipients)`, driven by the number `n` of remaining indices
(`n = total_recipients - start_index` at the initial call). -/
def dispatch_loop (env : DispatchEnv) (s : ℕ) :
    ℕ → ℕ → LoopState → LoopState × LoopExit
  | 0, _, st => (st, LoopExit.finished)
  | n + 1, i, st =>
    match dispatch_step env s i st with
    | (st1, true) => dispatch_loop env s n (i + 1) st1
    | (st1, false) => (st1, LoopExit.cancelled_stop)

/-- The dispatcher's early-return test (application.py line 5785):
`bulk_job.status in ['completed', 'failed', 'cancelled']` — note that
`'partial'` is NOT in this list. -/
def terminal_check : JobStatus → Bool
  | JobStatus.completed => true
  | JobStatus.failed => true
  | JobStatus.cancelled => true
  | _ => false

/-- The pre-loop mutation of `process_bulk_whatsapp_job` (application.py
lines 5794-5797): set status to `processing` and `started_at` when not
yet set (then committed). -/
def dispatch_start_job (env : DispatchEnv) (job0 : BulkJob) : BulkJob :=
  { job0 with
    status := JobStatus.processing
    started_at := match job0.started_at with
      | none => some env.now
      | some t => some t }

/-- The dispatcher's per-recipient loop as invoked by
`process_bulk_whatsapp_job`: starting index and initial local counters
come from the stored job row (`start_index = processed_count`,
application.py lines 5790 and 5808-5814), and the initial trace holds
the pre-loop `processing` commit. -/
def dispatch_run_loop (env : DispatchEnv) (job0 : BulkJob) :
    LoopState × LoopExit :=
  let j1 := dispatch_start_job env job0
  dispatch_loop env job0.processed_count
    (job0.total_recipients - job0.processed_count) job0.processed_count
    ⟨j1, j1.sent_count, j1.failed_count, [j1], []⟩

/-- `process_bulk_whatsapp_job` (application.py lines 5755-5982),
returning the job row as it stands when the function returns, the list
of job snapshots committed by this run (oldest first), and the list of
recipient indices attempted.  In source order: the empty-recipients
check (marks the job failed), the terminal-status early return, the
`processing` + `started_at` commit, the `get_teleobi_client()` failure
path (marks the job failed), the per-recipient loop from
`start_index = processed_count`, the final cancellation re-check, and
the `completed`/`'partial'` finalisation. -/
def process_bulk_whatsapp_job (env : DispatchEnv) (job0 : BulkJob) :
    BulkJob × List BulkJob × List ℕ :=
  if job0.total_recipients = 0 then
    let j := { job0 with
      status := JobStatus.failed
      completed_at := some env.now }
    (j, [j], [])
  else if terminal_check job0.status then
    (job0, [], [])
  else
    let j1 := dispatch_start_job env job0
    if env.client_available = false then
      let j2 := { j1 with
        status := JobStatus.failed
        completed_at := some env.now }
      (j2, [j1, j2], [])
    else
      let T := job0.total_recipients
      let res := dispatch_run_loop env job0
      match res.2 with
      | LoopExit.cancelled_stop => (res.1.job, res.1.trace, res.1.touched)
      | LoopExit.finished =>
        if cancelVisible env T then
          ({ res.1.job with status := JobStatus.cancelled },
           res.1.trace, res.1.touched)
        else
          let jf := { res.1.job with
            status := if res.1.failed = 0 then JobStatus.completed
                      else JobStatus.part_complete
            completed_at := some env.now
            sent_count := res.1.sent
            failed_count := res.1.failed
            processed_count := T }
          (jf, res.1.trace ++ [jf], res.1.touched)

/-- `api_cancel_bulk_job` (application.py lines 6217-6269): flip the
job to `cancelled` iff its status is `pending` or `processing`;
otherwise return HTTP 400 leaving the row untouched.  The boolean is
`true` on success. -/
def api_cancel_job (job : BulkJob) (now : ℕ) : BulkJob × Bool :=
  if job.status = JobStatus.pending ∨ job.status = JobStatus.processing then
    ({ job with status := JobStatus.cancelled, completed_at := some now }, true)
  else (job, false)

/-- The dispatcher's top-level exception handler (application.py lines
5984-6003): on an exception escaping the loop, re-fetch the job and
mark it `failed` (with `completed_at`) only when `processed_count == 0`;
otherwise leave the row exactly as its last commit left it, so recovery
can resume it. -/
def top_level_exception_handler (job : BulkJob) (now : ℕ) : BulkJob :=
  if job.processed_count = 0 then
    { job with status := JobStatus.failed, completed_at := some now }
  else job

/-! ## application.py — `api_fetch_job_details` (the Status Reconciler) -/

/-- The `status` column of a `WhatsAppSend` record. -/
inductive RecordStatus
  | sent
  | delivered
  | read
  | failed
deriving Repr, DecidableEq

/-- The fields of one provider `get_message_status` response that the
reconciler consults; the three time fields are modelled by their Python
truthiness. -/
structure ProviderStatus where
  message_status : Option String
  read_time : Bool
  failed_time : Bool
  delivery_status_updated_at : Bool
deriving Repr, DecidableEq

/-- Python `str.lower()` at the character level (ASCII case mapping,
as in `Char.toLower`). -/
def lower_string (s : String) : String :=
  String.mk (s.data.map Char.toLower)

/-- Normalisation of the raw `message_status` field (application.py
line 6552): `raw.lower()` when the field is a non-empty string, else
the empty string. -/
def normalize_status (raw : Option String) : String :=
  match raw with
  | none => ""
  | some s => if s = "" then "" else lower_string s

/-- The per-record status update of `api_fetch_job_details`
(application.py lines 6548-6616) applied to a record currently in
status `cur`.  A falsy (`none`) response leaves the record unchanged;
so does a response whose four fields are all absent (the line 6561
guard).  Otherwise the branches fire in the source order
read → delivered → failed → sent. -/
def reconcile_record (cur : RecordStatus) (sd : Option ProviderStatus) :
    RecordStatus :=
  match sd with
  | none => cur
  | some d =>
    let ms := normalize_status d.message_status
    if ms = "" ∧ d.read_time = false ∧ d.failed_time = false ∧
        d.delivery_status_updated_at = false then cur
    else if d.read_time then RecordStatus.read
    else if ms = "delivered" ∨ d.delivery_status_updated_at then
      RecordStatus.delivered
    else if ms = "failed" ∨ d.failed_time then RecordStatus.failed
    else if ms = "sent" ∨ ms = "" then RecordStatus.sent
    else cur

/-- The reconciler's outer filter (application.py line 6539): a record
is submitted to the provider status lookup only when it has a
`wa_message_id` and its status is not `failed`. -/
def fetch_details_update (has_wa_id : Bool) (cur : RecordStatus)
    (sd : Option ProviderStatus) : RecordStatus :=
  if has_wa_id && decide (cur ≠ RecordStatus.failed) then
    reconcile_record cur sd
  else cur

/-- The two job invariants claimed for every persisted snapshot:
`processed_count ≤ total` and `sent_count + failed_count ≤
processed_count`. -/
def jobInv (T : ℕ) (j : BulkJob) : Prop :=
  j.processed_count ≤ T ∧ j.sent_count + j.failed_count ≤ j.processed_count

/-! ## Concrete runs used by the counterexamples and witnesses -/

/-- A dispatcher environment where every send succeeds, the job is
never cancelled, and the provider client is available. -/
def envBenign : DispatchEnv := ⟨fun _ => RecipientOutcome.send_ok, none, true, 7⟩

/-- A job already finalised in the terminal status `'partial'`
(5 recipients, all processed, one failure). -/
def jobPartC1 : BulkJob :=
  ⟨JobStatus.part_complete, 5, 5, 4, 1, some 1, some 2⟩

/-- A job already finalised in the terminal status `'completed'`. -/
def jobDoneC1 : BulkJob := ⟨JobStatus.completed, 3, 3, 3, 0, some 1, some 2⟩

/-- An environment where every recipient fails at the template-cache
lookup. -/
def envC3 : DispatchEnv := ⟨fun _ => RecipientOutcome.no_template, none, true, 9⟩

/-- A fresh one-recipient job. -/
def jobC3 : BulkJob := ⟨JobStatus.pending, 1, 0, 0, 0, none, none⟩

/-- A fresh two-recipient job. -/
def jobC3w : BulkJob := ⟨JobStatus.pending, 2, 0, 0, 0, none, none⟩

/-- An environment in which `get_teleobi_client()` returns no client. -/
def envC5 : DispatchEnv := ⟨fun _ => RecipientOutcome.send_ok, none, false, 3⟩

/-- A mid-flight job with 4 of 10 recipients already processed. -/
def jobC5 : BulkJob := ⟨JobStatus.processing, 10, 4, 3, 1, some 0, none⟩

/-- A job with no progress at all. -/
def jobC5z : BulkJob := ⟨JobStatus.processing, 10, 0, 0, 0, some 0, none⟩

/-- A resumable job: 2 of 4 recipients already processed. -/
def jobC6w : BulkJob := ⟨JobStatus.processing, 4, 2, 1, 1, some 0, none⟩

/-- An environment whose cancellation becomes visible from loop
index 5. -/
def envC9w : DispatchEnv := ⟨fun _ => RecipientOutcome.send_ok, some 5, true, 5⟩

/-- A job already cancelled. -/
def jobC9w : BulkJob := ⟨JobStatus.cancelled, 1, 0, 0, 0, none, none⟩

/-- Limiter state at `now = 100`: the seconds window is at capacity
with a 0.5 s wait remaining, and the minute window is at capacity with
a 10 s wait remaining (20 sends all at `t = 50`). -/
def stC4 : LimiterState := ⟨[199/2], List.replicate 20 50, [], []⟩

/-- Limiter state at `now = 100` with only the seconds window at
capacity. -/
def stC4w : LimiterState := ⟨[199/2], [], [], []⟩

/-- The quality metrics of §8 Scenario D: 50 total sends, 10
successful. -/
def mQualityD : QualityMetrics := ⟨50, 10, 40, 0, none⟩

/-- Fresh client quality metrics (all counters zero). -/
def mZero : QualityMetrics := ⟨0, 0, 0, 0, none⟩

/-- A send-call environment where the rate limiter always allows and
the provider accepts the message. -/
def envSendW : SendCallEnv :=
  ⟨(true, none), (true, none), (true, none), true, some "wamid.test"⟩

/-! ## Loop lemmas shared by the dispatcher theorems -/

theorem dispatch_step_touched (env : DispatchEnv) (s i : ℕ) (st : LoopState) :
    (dispatch_step env s i st).1.touched = st.touched ∨
    (dispatch_step env s i st).1.touched = st.touched ++ [i] := by
  unfold dispatch_step
  split
  · exact Or.inl rfl
  · cases env.outcome i <;> simp

theorem dispatch_loop_touched_mem (env : DispatchEnv) (s : ℕ) :
    ∀ n i st j, j ∈ (dispatch_loop env s n i st).1.touched →
      j ∈ st.touched ∨ i ≤ j := by
  intro n
  induction n with
  | zero => intro i st j hj; exact Or.inl hj
  | succ n ih =>
    intro i st j hj
    rw [dispatch_loop] at hj
    rcases hstep : dispatch_step env s i st with ⟨st1, b⟩
    rw [hstep] at hj
    have htch := dispatch_step_touched env s i st
    rw [hstep] at htch
    cases b with
    | false =>
      simp only at hj
      rcases htch with h | h
      · rw [h] at hj; exact Or.inl hj
      · rw [h] at hj
        rcases List.mem_append.mp hj with h2 | h2
        · exact Or.inl h2
        · simp only [List.mem_singleton] at h2
          omega
    | true =>
      simp only at hj
      rcases ih (i + 1) st1 j hj with h2 | h2
      · rcases htch with h | h
        · rw [h] at h2; exact Or.inl h2
        · rw [h] at h2
          rcases List.mem_append.mp h2 with h3 | h3
          · exact Or.inl h3
          · simp only [List.mem_singleton] at h3
            omega
      · omega

theorem dispatch_loop_inv (env : DispatchEnv) (s T : ℕ)
    (hout : ∀ k, s ≤ k → env.outcome k ≠ RecipientOutcome.no_phone ∧
      env.outcome k ≠ RecipientOutcome.no_template) :
    ∀ n i st, i + n = T → s ≤ i →
      st.job.processed_count = i → st.job.sent_count = st.sent →
      st.job.failed_count = st.failed → st.sent + st.failed ≤ i →
      (∀ j ∈ st.trace, jobInv T j) →
      (dispatch_loop env s n i st).1.sent + (dispatch_loop env s n i st).1.failed ≤ T ∧
      ∀ j ∈ (dispatch_loop env s n i st).1.trace, jobInv T j := by
  intro n
  induction n with
  | zero =>
    intro i st hiT his hp hs hf hsf htr
    simp only [dispatch_loop]
    exact ⟨by omega, htr⟩
  | succ n ih =>
    intro i st hiT his hp hs hf hsf htr
    rw [dispatch_loop]
    by_cases hcc : (check_fires s i && cancelVisible env i) = true
    · rw [dispatch_step, if_pos hcc]
      refine ⟨by dsimp; omega, ?_⟩
      intro j hj
      dsimp at hj
      rcases List.mem_append.mp hj with hj | hj
      · exact htr j hj
      · rw [List.mem_singleton] at hj
        subst hj
        exact ⟨by dsimp; omega, by dsimp; omega⟩
    · rw [dispatch_step, if_neg hcc]
      cases houtc : env.outcome i with
      | no_phone => exact absurd houtc (hout i his).1
      | no_template => exact absurd houtc (hout i his).2
      | send_ok =>
        dsimp
        refine ih (i + 1) _ (by omega) (by omega) rfl rfl ?_ (by dsimp; omega) ?_
        · dsimp; omega
        · intro j hj
          rcases List.mem_append.mp hj with hj | hj
          · exact htr j hj
          · rw [List.mem_singleton] at hj
            subst hj
            exact ⟨by dsimp; omega, by dsimp; omega⟩
      | send_fail =>
        dsimp
        refine ih (i + 1) _ (by omega) (by omega) rfl ?_ rfl (by dsimp; omega) ?_
        · dsimp; omega
        · intro j hj
          rcases List.mem_append.mp hj with hj | hj
          · exact htr j hj
          · rw [List.mem_singleton] at hj
            subst hj
            exact ⟨by dsimp; omega, by dsimp; omega⟩
      | exn =>
        dsimp
        refine ih (i + 1) _ (by omega) (by omega) rfl ?_ rfl (by dsimp; omega) ?_
        · dsimp; omega
        · intro j hj
          rcases List.mem_append.mp hj with hj | hj
          · exact htr j hj
          · rw [List.mem_singleton] at hj
            subst hj
            exact ⟨by dsimp; omega, by dsimp; omega⟩

theorem dispatch_loop_cancel_countA (env : DispatchEnv) (s c : ℕ)
    (hc : env.cancel_visible_from = some c) :
    ∀ n i st, c ≤ i →
      (dispatch_loop env s n i st).1.touched.countP (fun j => decide (c ≤ j)) ≤
        st.touched.countP (fun j => decide (c ≤ j)) + (9 - i % 10) := by
  intro n
  induction n with
  | zero =>
    intro i st hci
    simp only [dispatch_loop]
    omega
  | succ n ih =>
    intro i st hci
    rw [dispatch_loop]
    have hvis : cancelVisible env i = true := by
      simp only [cancelVisible, hc, decide_eq_true_eq]
      omega
    by_cases hcf : check_fires s i = true
    · rw [dispatch_step, if_pos (by simp [hcf, hvis])]
      dsimp
      omega
    · have hmod : (i + 1) % 10 ≠ 0 := by
        intro h
        exact hcf (by unfold check_fires; rw [h]; simp)
      rw [dispatch_step,
        if_neg (fun h => hcf (by simp only [Bool.and_eq_true] at h; exact h.1))]
      cases env.outcome i with
      | no_phone =>
        dsimp
        refine le_trans (ih (i + 1) _ (by omega)) ?_
        simp only [List.countP_append, List.countP_cons, List.countP_nil,
          decide_eq_true_eq]
        rw [if_pos hci]
        omega
      | no_template =>
        dsimp
        refine le_trans (ih (i + 1) _ (by omega)) ?_
        simp only [List.countP_append, List.countP_cons, List.countP_nil,
          decide_eq_true_eq]
        rw [if_pos hci]
        omega
      | send_ok =>
        dsimp
        refine le_trans (ih (i + 1) _ (by omega)) ?_
        simp only [List.countP_append, List.countP_cons, List.countP_nil,
          decide_eq_true_eq]
        rw [if_pos hci]
        omega
      | send_fail =>
        dsimp
        refine le_trans (ih (i + 1) _ (by omega)) ?_
        simp only [List.countP_append, List.countP_cons, List.countP_nil,
          decide_eq_true_eq]
        rw [if_pos hci]
        omega
      | exn =>
        dsimp
        refine le_trans (ih (i + 1) _ (by omega)) ?_
        simp only [List.countP_append, List.countP_cons, List.countP_nil,
          decide_eq_true_eq]
        rw [if_pos hci]
        omega

theorem dispatch_loop_cancel_countB (env : DispatchEnv) (s c : ℕ)
    (hc : env.cancel_visible_from = some c) :
    ∀ n i st, (dispatch_loop env s n i st).1.touched.countP (fun j => decide (c ≤ j)) ≤
      st.touched.countP (fun j => decide (c ≤ j)) + 9 := by
  intro n
  induction n with
  | zero =>
    intro i st
    simp only [dispatch_loop]
    omega
  | succ n ih =>
    intro i st
    by_cases hci : c ≤ i
    · have := dispatch_loop_cancel_countA env s c hc (n + 1) i st hci
      omega
    · rw [dispatch_loop]
      have hvis : cancelVisible env i = false := by
        simp only [cancelVisible, hc, decide_eq_false_iff_not]
        omega
      rw [dispatch_step, if_neg (by simp [hvis])]
      cases env.outcome i with
      | no_phone =>
        dsimp
        refine le_trans (ih (i + 1) _) ?_
        simp only [List.countP_append, List.countP_cons, List.countP_nil,
          decide_eq_true_eq]
        rw [if_neg hci]
      | no_template =>
        dsimp
        refine le_trans (ih (i + 1) _) ?_
        simp only [List.countP_append, List.countP_cons, List.countP_nil,
          decide_eq_true_eq]
        rw [if_neg hci]
      | send_ok =>
        dsimp
        refine le_trans (ih (i + 1) _) ?_
        simp only [List.countP_append, List.countP_cons, List.countP_nil,
          decide_eq_true_eq]
        rw [if_neg hci]
      | send_fail =>
        dsimp
        refine le_trans (ih (i + 1) _) ?_
        simp only [List.countP_append, List.countP_cons, List.countP_nil,
          decide_eq_true_eq]
        rw [if_neg hci]
      | exn =>
        dsimp
        refine le_trans (ih (i + 1) _) ?_
        simp only [List.countP_append, List.countP_cons, List.countP_nil,
          decide_eq_true_eq]
        rw [if_neg hci]

theorem dispatch_run_loop_inv (env : DispatchEnv) (job : BulkJob)
    (h1 : job.processed_count ≤ job.total_recipients)
    (h2 : job.sent_count + job.failed_count ≤ job.processed_count)
    (h3 : ∀ k, job.processed_count ≤ k →
      env.outcome k ≠ RecipientOutcome.no_phone ∧
      env.outcome k ≠ RecipientOutcome.no_template) :
    (dispatch_run_loop env job).1.sent + (dispatch_run_loop env job).1.failed ≤
      job.total_recipients ∧
    ∀ j ∈ (dispatch_run_loop env job).1.trace, jobInv job.total_recipients j := by
  unfold dispatch_run_loop
  refine dispatch_loop_inv env job.processed_count job.total_recipients h3 _ _ _
    (by omega) le_rfl rfl rfl rfl h2 ?_
  intro j hj
  rw [List.mem_singleton] at hj
  subst hj
  exact ⟨h1, h2⟩

theorem dispatch_run_loop_touched (env : DispatchEnv) (job : BulkJob) (k : ℕ)
    (hk : k ∈ (dispatch_run_loop env job).1.touched) :
    job.processed_count ≤ k := by
  unfold dispatch_run_loop at hk
  rcases dispatch_loop_touched_mem env job.processed_count
    (job.total_recipients - job.processed_count) job.processed_count _ k hk with
    h | h
  · simp at h
  · exact h

theorem dispatch_run_loop_cancel_count (env : DispatchEnv) (job : BulkJob) (c : ℕ)
    (hc : env.cancel_visible_from = some c) :
    (dispatch_run_loop env job).1.touched.countP (fun j => decide (c ≤ j)) ≤ 9 := by
  unfold dispatch_run_loop
  have := dispatch_loop_cancel_countB env job.processed_count c hc
    (job.total_recipients - job.processed_count) job.processed_count
    ⟨dispatch_start_job env job, (dispatch_start_job env job).sent_count,
      (dispatch_start_job env job).failed_count, [dispatch_start_job env job], []⟩
  simpa using this

/-! ## Claim theorems -/

/-- **C1** (amended): for every job whose status is `completed`,
`failed`, or `cancelled` — the statuses in the dispatcher's terminal
check — running the dispatcher returns immediately without modifying
the job (provided its recipient list is stored), and a cancellation
request is rejected without modifying it.  (A job in the fourth
terminal status `'partial'` is NOT covered: the source's terminal
check omits it, see the counterexample.) -/
theorem C1_terminal_jobs_untouched (env : DispatchEnv) (job : BulkJob) (now : ℕ)
    (hterm : terminal_check job.status = true) :
    (job.total_recipients ≠ 0 →
      process_bulk_whatsapp_job env job = (job, [], [])) ∧
    api_cancel_job job now = (job, false) := by
  constructor
  · intro h0
    unfold process_bulk_whatsapp_job
    rw [if_neg h0, if_pos hterm]
  · have hnp : ¬(job.status = JobStatus.pending ∨ job.status = JobStatus.processing) := by
      rintro (h | h) <;> rw [h] at hterm <;> simp [terminal_check] at hterm
    rw [api_cancel_job, if_neg hnp]

theorem C1_terminal_jobs_untouched_witness :
    process_bulk_whatsapp_job envBenign jobDoneC1 = (jobDoneC1, [], []) ∧
    api_cancel_job jobDoneC1 4 = (jobDoneC1, false) :=
  ⟨(C1_terminal_jobs_untouched envBenign jobDoneC1 4 (by decide)).1 (by decide),
   (C1_terminal_jobs_untouched envBenign jobDoneC1 4 (by decide)).2⟩

/-- **C1** (counterexample): a job in the terminal status `'partial'`
is NOT skipped by the dispatcher: the run commits a snapshot whose
status is `processing` (the status leaves a terminal state) and returns
a job row different from the input (its `completed_at` is rewritten),
contradicting "running the Dispatcher on an already-terminal job
returns immediately without modifying the job". -/
theorem C1_partial_reentered_counterexample :
    ((process_bulk_whatsapp_job envBenign jobPartC1).2.1.map BulkJob.status) =
      [JobStatus.processing, JobStatus.part_complete] ∧
    (process_bulk_whatsapp_job envBenign jobPartC1).1 ≠ jobPartC1 := by
  decide

/-- **C2** (amended): the reconciler never moves a `delivered` (or
`read`) record back to `sent` as long as the provider response does not
explicitly carry `message_status = 'sent'`; in particular a response
omitting every status field, or omitting `message_status`, never
downgrades the record. -/
theorem C2_no_downgrade_without_sent (hid : Bool) (cur : RecordStatus)
    (sd : Option ProviderStatus)
    (hcur : cur = RecordStatus.delivered ∨ cur = RecordStatus.read)
    (hms : ∀ d, sd = some d → normalize_status d.message_status ≠ "sent") :
    fetch_details_update hid cur sd ≠ RecordStatus.sent := by
  have hcur' : cur ≠ RecordStatus.sent := by
    rcases hcur with h | h <;> rw [h] <;> simp
  unfold fetch_details_update
  split
  · unfold reconcile_record
    cases sd with
    | none => exact hcur'
    | some d =>
      have hms' := hms d rfl
      dsimp only
      split
      · exact hcur'
      · next hguard =>
        split
        · simp
        · next hread =>
          split
          · simp
          · next hdel =>
            split
            · simp
            · next hfail =>
              split
              · next hsent =>
                rcases hsent with h | h
                · exact absurd h hms'
                · exfalso
                  apply hguard
                  refine ⟨h, ?_, ?_, ?_⟩
                  · exact Bool.eq_false_iff.mpr hread
                  · exact Bool.eq_false_iff.mpr (fun hf => hfail (Or.inr hf))
                  · exact Bool.eq_false_iff.mpr (fun hd2 => hdel (Or.inr hd2))
              · exact hcur'
  · exact hcur'

theorem C2_no_downgrade_without_sent_witness :
    fetch_details_update true RecordStatus.delivered none ≠ RecordStatus.sent :=
  C2_no_downgrade_without_sent true RecordStatus.delivered none (Or.inl rfl)
    (fun _ hd => Option.noConfusion hd)

/-- **C2** (counterexample): a stale provider response carrying
`message_status = 'sent'` and no read/delivery/failure fields DOES move
a `delivered` (or `read`) record back to `sent`, contradicting "a
record whose status is delivered (or read) is never set back to sent,
regardless of which fields the provider response contains or omits". -/
theorem C2_downgrade_counterexample :
    fetch_details_update true RecordStatus.delivered
      (some ⟨some "sent", false, false, false⟩) = RecordStatus.sent ∧
    fetch_details_update true RecordStatus.read
      (some ⟨some "sent", false, false, false⟩) = RecordStatus.sent := by
  decide

/-- **C4** (amended): `can_send` checks the four windows in the fixed
order second, minute, hour, day and returns the wait (clamped below at
0.1) of the FIRST window found at capacity, ignoring any later window;
only when no window is at capacity does it return `(true, none)`. -/
theorem C4_first_window_wait (limits : Limits) (now : ℚ) (st : LimiterState) :
    ((((clean_old_entries now st).secondly_sends.length : ℚ) ≥ limits.per_second →
      can_send limits now st = (false, some (max (1/10)
        (window_wait (clean_old_entries now st).secondly_sends 1 now)))) ∧
    (¬ (((clean_old_entries now st).secondly_sends.length : ℚ) ≥ limits.per_second) →
      (((clean_old_entries now st).minutely_sends.length : ℚ) ≥ limits.per_minute) →
      can_send limits now st = (false, some (max (1/10)
        (window_wait (clean_old_entries now st).minutely_sends 60 now)))) ∧
    (¬ (((clean_old_entries now st).secondly_sends.length : ℚ) ≥ limits.per_second) →
      ¬ (((clean_old_entries now st).minutely_sends.length : ℚ) ≥ limits.per_minute) →
      (((clean_old_entries now st).hourly_sends.length : ℚ) ≥ limits.per_hour) →
      can_send limits now st = (false, some (max (1/10)
        (window_wait (clean_old_entries now st).hourly_sends 3600 now)))) ∧
    (¬ (((clean_old_entries now st).secondly_sends.length : ℚ) ≥ limits.per_second) →
      ¬ (((clean_old_entries now st).minutely_sends.length : ℚ) ≥ limits.per_minute) →
      ¬ (((clean_old_entries now st).hourly_sends.length : ℚ) ≥ limits.per_hour) →
      per_day_blocks limits.per_day (clean_old_entries now st).daily_sends.length = true →
      can_send limits now st = (false, some (max (1/10)
        (window_wait (clean_old_entries now st).daily_sends 86400 now)))) ∧
    (¬ (((clean_old_entries now st).secondly_sends.length : ℚ) ≥ limits.per_second) →
      ¬ (((clean_old_entries now st).minutely_sends.length : ℚ) ≥ limits.per_minute) →
      ¬ (((clean_old_entries now st).hourly_sends.length : ℚ) ≥ limits.per_hour) →
      per_day_blocks limits.per_day (clean_old_entries now st).daily_sends.length = false →
      can_send limits now st = (true, none))) := by
  refine ⟨fun h1 => ?_, fun h1 h2 => ?_, fun h1 h2 h3 => ?_,
    fun h1 h2 h3 h4 => ?_, fun h1 h2 h3 h4 => ?_⟩ <;>
    unfold can_send <;> dsimp only
  · rw [if_pos h1]
  · rw [if_neg h1, if_pos h2]
  · rw [if_neg h1, if_neg h2, if_pos h3]
  · rw [if_neg h1, if_neg h2, if_neg h3, if_pos h4]
  · rw [if_neg h1, if_neg h2, if_neg h3,
      if_neg (fun hh => by rw [h4] at hh; exact Bool.false_ne_true hh)]

theorem C4_first_window_wait_witness :
    can_send (TIER_LIMITS 1) 100 stC4w = (false, some (max (1/10)
      (window_wait (clean_old_entries 100 stC4w).secondly_sends 1 100))) ∧
    can_send (TIER_LIMITS 1) 0 emptyLimiter = (true, none) :=
  ⟨(C4_first_window_wait (TIER_LIMITS 1) 100 stC4w).1
     (by norm_num [clean_old_entries, stC4w, TIER_LIMITS]),
   (C4_first_window_wait (TIER_LIMITS 1) 0 emptyLimiter).2.2.2.2
     (by norm_num [clean_old_entries, emptyLimiter, TIER_LIMITS])
     (by norm_num [clean_old_entries, emptyLimiter, TIER_LIMITS])
     (by norm_num [clean_old_entries, emptyLimiter, TIER_LIMITS])
     (by norm_num [per_day_blocks, clean_old_entries, emptyLimiter, TIER_LIMITS])⟩

/-- **C4** (counterexample): with the seconds window at capacity
(0.5 s wait remaining) and the minute window also at capacity (10 s
wait remaining), `can_send` returns the wait of the first-checked
seconds window, 0.5, not the longest required wait 10 — contradicting
"returns (false, w) where w is the longest required wait among all
windows currently at capacity". -/
theorem C4_longest_wait_counterexample :
    can_send (TIER_LIMITS 1) 100 stC4 = (false, some (1/2)) ∧
    ((clean_old_entries 100 stC4).minutely_sends.length : ℚ) ≥
      (TIER_LIMITS 1).per_minute ∧
    max (1/10 : ℚ) (window_wait (clean_old_entries 100 stC4).minutely_sends 60 100)
      = 10 ∧
    ¬ ((1/2 : ℚ) = 10) := by
  refine ⟨?_, ?_, ?_, ?_⟩ <;>
    norm_num [can_send, clean_old_entries, stC4, window_wait, TIER_LIMITS,
      per_day_blocks, List.replicate_succ]

/-- **C5** (counterexample): when `get_teleobi_client()` returns no
client — an error aborting the dispatcher before the per-recipient
loop — the job is marked `failed` even though `processed_count = 4 > 0`
and its status was `processing`, contradicting "the job is marked
failed only if processed_count == 0". -/
theorem C5_client_unavailable_counterexample :
    (process_bulk_whatsapp_job envC5 jobC5).1.status = JobStatus.failed ∧
    jobC5.processed_count = 4 ∧ jobC5.status = JobStatus.processing := by
  decide

/-- **C5** (amended): for an exception that escapes the loop and
reaches the dispatcher's top-level handler, the job is marked `failed`
only when `processed_count = 0`; with any progress the row is left
exactly as its last commit left it (status still `processing`,
last-good `processed_count` preserved).  The pre-loop
client-unavailable and empty-recipients paths, however, mark the job
`failed` regardless of `processed_count` (see the counterexample). -/
theorem C5_top_level_handler (job : BulkJob) (now : ℕ) :
    (job.processed_count = 0 →
      top_level_exception_handler job now =
        { job with status := JobStatus.failed, completed_at := some now }) ∧
    (0 < job.processed_count → top_level_exception_handler job now = job) := by
  constructor
  · intro h
    unfold top_level_exception_handler
    rw [if_pos h]
  · intro h
    unfold top_level_exception_handler
    rw [if_neg (by omega)]

theorem C5_top_level_handler_witness :
    top_level_exception_handler jobC5z 9 =
      { jobC5z with status := JobStatus.failed, completed_at := some 9 } ∧
    top_level_exception_handler jobC5 9 = jobC5 :=
  ⟨(C5_top_level_handler jobC5z 9).1 (by decide),
   (C5_top_level_handler jobC5 9).2 (by decide)⟩

/-- **C7** (evaluation at the failing input): tier 1 sets
`per_second = 0.5`, documented as a messages-per-second rate (one send
every 2 s), but the implementation compares the count of a ONE-second
sliding window against 0.5, which admits one send per second.  With
three back-to-back `can_send`/`record_send` cycles at time 0, the
second and third calls both report a wait of 1.0 — not the ≈2 and ≈4
seconds the intended 0.5 msg/s rate requires. -/
theorem C7_fractional_limit_eval :
    can_send (TIER_LIMITS 1) 0 emptyLimiter = (true, none) ∧
    can_send (TIER_LIMITS 1) 0 (record_send 0 emptyLimiter) = (false, some 1) ∧
    can_send (TIER_LIMITS 1) 0 (record_send 0 (record_send 0 emptyLimiter)) =
      (false, some 1) := by
  refine ⟨?_, ?_, ?_⟩ <;>
    norm_num [can_send, clean_old_entries, record_send, emptyLimiter, window_wait,
      TIER_LIMITS, per_day_blocks]

/-- **C8**: job admission evaluates the success rate only when
`total_sends > 10`, rejecting exactly when additionally
`successful_sends / total_sends < 0.3`; in particular §8 Scenario D
(`total_sends = 50`, `successful_sends = 10`, a 20% success rate) is
rejected with an admission error before any dispatcher is launched. -/
theorem C8_quality_gate :
    (∀ m : QualityMetrics, admission_quality_rejects m = true ↔
      (10 < m.total_sends ∧
        (m.successful_sends : ℚ) / (m.total_sends : ℚ) < 3/10)) ∧
    admission_quality_rejects mQualityD = true ∧
    quality_success_rate mQualityD = 1/5 := by
  refine ⟨fun m => ?_, ?_, ?_⟩
  case refine_2 =>
    simp only [admission_quality_rejects, quality_success_rate, mQualityD,
      Bool.and_eq_true, decide_eq_true_eq]
    norm_num
  case refine_3 => norm_num [quality_success_rate, mQualityD]
  case refine_1 =>
  rw [admission_quality_rejects, Bool.and_eq_true, decide_eq_true_eq,
    decide_eq_true_eq]
  constructor
  · rintro ⟨h1, h2⟩
    rw [quality_success_rate, if_pos (by omega)] at h2
    exact ⟨h1, h2⟩
  · rintro ⟨h1, h2⟩
    refine ⟨h1, ?_⟩
    rw [quality_success_rate, if_pos (by omega)]
    exact h2

theorem C8_quality_gate_witness :
    admission_quality_rejects mQualityD = true :=
  (C8_quality_gate.1 mQualityD).mpr ⟨by decide, by norm_num [mQualityD]⟩


/-- **C3** (counterexample): a one-recipient job whose only recipient
fails at the template-cache lookup produces a persisted snapshot with
`failed_count = 1` but `processed_count = 0` (the commit at
application.py line 5863 writes `failed_count` without
`processed_count`), violating the claimed persisted invariant
`sent_count + failed_count ≤ processed_count`. -/
theorem C3_persisted_invariant_counterexample :
    (process_bulk_whatsapp_job envC3 jobC3).2.1.map
        (fun j => (j.processed_count, j.sent_count, j.failed_count)) =
      [(0, 0, 0), (0, 0, 1), (1, 0, 1)] ∧
    (process_bulk_whatsapp_job envC3 jobC3).2.1.any
      (fun j => decide (j.processed_count < j.sent_count + j.failed_count)) =
      true := by
  decide

/-- **C3** (amended): on recipient attempts that reach the provider
send or fail inside the body with a caught exception, `processed_count`
is set to `index + 1` and persisted together with the `sent_count` or
`failed_count` update; consequently, for a job whose pending recipients
all avoid the phone-resolution and template-lookup failure paths, every
snapshot this run persists satisfies `processed_count ≤ len(recipients)`
and `sent_count + failed_count ≤ processed_count`.  (Template-lookup
failures persist `failed_count` alone and phone-resolution failures
persist nothing, so the second invariant can fail there — see the
counterexample.) -/
theorem C3_persisted_invariants (env : DispatchEnv) (job : BulkJob)
    (h1 : job.processed_count ≤ job.total_recipients)
    (h2 : job.sent_count + job.failed_count ≤ job.processed_count)
    (h3 : ∀ k, job.processed_count ≤ k →
      env.outcome k ≠ RecipientOutcome.no_phone ∧
      env.outcome k ≠ RecipientOutcome.no_template) :
    ∀ j ∈ (process_bulk_whatsapp_job env job).2.1,
      jobInv job.total_recipients j := by
  intro j
  unfold process_bulk_whatsapp_job
  by_cases h0 : job.total_recipients = 0
  · rw [if_pos h0]
    intro hj
    dsimp at hj
    rw [List.mem_singleton] at hj
    subst hj
    exact ⟨by dsimp; omega, by dsimp; omega⟩
  · rw [if_neg h0]
    by_cases hterm : terminal_check job.status = true
    · rw [if_pos hterm]
      intro hj
      simp at hj
    · rw [if_neg hterm]
      dsimp only
      by_cases hcl : env.client_available = false
      · rw [if_pos hcl]
        intro hj
        simp only [List.mem_cons, List.not_mem_nil, or_false] at hj
        rcases hj with hj | hj <;> subst hj <;> exact ⟨h1, h2⟩
      · rw [if_neg hcl]
        have hloop := dispatch_run_loop_inv env job h1 h2 h3
        cases hex : (dispatch_run_loop env job).2 with
        | cancelled_stop =>
          intro hj
          exact hloop.2 j hj
        | finished =>
          by_cases hcv : cancelVisible env job.total_recipients = true
          · rw [if_pos hcv]
            intro hj
            exact hloop.2 j hj
          · rw [if_neg hcv]
            intro hj
            dsimp at hj
            rcases List.mem_append.mp hj with hj | hj
            · exact hloop.2 j hj
            · rw [List.mem_singleton] at hj
              subst hj
              exact ⟨le_rfl, hloop.1⟩

theorem C3_persisted_invariants_witness :
    jobInv jobC3w.total_recipients (process_bulk_whatsapp_job envBenign jobC3w).1 :=
  C3_persisted_invariants envBenign jobC3w (by decide) (by decide)
    (fun k hk => ⟨by simp [envBenign], by simp [envBenign]⟩)
    (process_bulk_whatsapp_job envBenign jobC3w).1 (by decide)

/-- **C6**: every recipient index the dispatcher attempts (in any run,
fresh, resumed or recovered — all go through the same
`process_bulk_whatsapp_job`) is at least the job's stored
`processed_count`: recipients at indices `0 .. processed_count - 1` are
never attempted again. -/
theorem C6_resume_skips_processed (env : DispatchEnv) (job : BulkJob) (k : ℕ)
    (hk : k ∈ (process_bulk_whatsapp_job env job).2.2) :
    job.processed_count ≤ k := by
  revert hk
  unfold process_bulk_whatsapp_job
  by_cases h0 : job.total_recipients = 0
  · rw [if_pos h0]
    intro hk
    simp at hk
  · rw [if_neg h0]
    by_cases hterm : terminal_check job.status = true
    · rw [if_pos hterm]
      intro hk
      simp at hk
    · rw [if_neg hterm]
      dsimp only
      by_cases hcl : env.client_available = false
      · rw [if_pos hcl]
        intro hk
        simp at hk
      · rw [if_neg hcl]
        have htch := fun hmem => dispatch_run_loop_touched env job k hmem
        cases hex : (dispatch_run_loop env job).2 with
        | cancelled_stop =>
          exact htch
        | finished =>
          by_cases hcv : cancelVisible env job.total_recipients = true
          · rw [if_pos hcv]
            exact htch
          · rw [if_neg hcv]
            exact htch

theorem C6_resume_skips_processed_witness :
    (2 ∈ (process_bulk_whatsapp_job envBenign jobC6w).2.2) ∧
    jobC6w.processed_count ≤ 2 :=
  ⟨by decide, C6_resume_skips_processed envBenign jobC6w 2 (by decide)⟩

/-- **C9**: once cancellation is visible from loop index `c`, the
dispatcher attempts at most 10 further recipients at indices `≥ c`
(the poll at `processed_count % 10 == 0` stops the loop within one
check interval), and a job whose stored status is already `cancelled`
is never re-entered by the dispatcher — `process_bulk_whatsapp_job`
returns it unchanged, so its `processed_count` never advances again. -/
theorem C9_cancellation_bound (env : DispatchEnv) (job : BulkJob) (c : ℕ)
    (hc : env.cancel_visible_from = some c) :
    (process_bulk_whatsapp_job env job).2.2.countP
      (fun j => decide (c ≤ j)) ≤ 10 ∧
    (job.status = JobStatus.cancelled → 0 < job.total_recipients →
      process_bulk_whatsapp_job env job = (job, [], [])) := by
  constructor
  · unfold process_bulk_whatsapp_job
    by_cases h0 : job.total_recipients = 0
    · rw [if_pos h0]
      simp
    · rw [if_neg h0]
      by_cases hterm : terminal_check job.status = true
      · rw [if_pos hterm]
        simp
      · rw [if_neg hterm]
        dsimp only
        by_cases hcl : env.client_available = false
        · rw [if_pos hcl]
          simp
        · rw [if_neg hcl]
          have hcount := dispatch_run_loop_cancel_count env job c hc
          cases hex : (dispatch_run_loop env job).2 with
          | cancelled_stop =>
            exact le_trans hcount (by omega)
          | finished =>
            by_cases hcv : cancelVisible env job.total_recipients = true
            · rw [if_pos hcv]
              exact le_trans hcount (by omega)
            · rw [if_neg hcv]
              exact le_trans hcount (by omega)
  · intro hcanc hpos
    unfold process_bulk_whatsapp_job
    rw [if_neg (by omega), if_pos (by rw [hcanc]; rfl)]

theorem C9_cancellation_bound_witness :
    (process_bulk_whatsapp_job envC9w jobC9w).2.2.countP
      (fun j => decide (5 ≤ j)) ≤ 10 ∧
    process_bulk_whatsapp_job envC9w jobC9w = (jobC9w, [], []) :=
  ⟨(C9_cancellation_bound envC9w jobC9w 5 rfl).1,
   (C9_cancellation_bound envC9w jobC9w 5 rfl).2 (by decide) (by decide)⟩

theorem filter_digits_all (l : List Char) :
    (l.filter Char.isDigit).all Char.isDigit = true :=
  List.all_eq_true.mpr (fun _ hc => (List.mem_filter.mp hc).2)

theorem send_after_validation_phone (env : SendCallEnv) (p : String)
    (tid : Option String) (q : String)
    (h : (send_after_validation env p tid).provider_called = some q) :
    q = clean_phone_number p := by
  unfold send_after_validation at h
  dsimp only at h
  by_cases h1 : env.send_rate1.1 = true
  · rw [if_pos h1] at h
    cases tid with
    | none => simp at h
    | some t =>
      by_cases hok : env.provider_ok = true
      · rw [if_pos hok] at h
        exact (Option.some.inj h).symm
      · rw [if_neg hok] at h
        exact (Option.some.inj h).symm
  · rw [if_neg h1] at h
    by_cases h2 : env.send_rate2.1 = true
    · rw [if_pos h2] at h
      cases tid with
      | none => simp at h
      | some t =>
        by_cases hok : env.provider_ok = true
        · rw [if_pos hok] at h
          exact (Option.some.inj h).symm
        · rw [if_neg hok] at h
          exact (Option.some.inj h).symm
    · rw [if_neg h2] at h
      simp at h

/-- **C10**: the client cleans every phone number by keeping only its
digit characters, prepending the country code `"91"` when exactly 10
digits remain (so the cleaned form is all digits); with pre-send
validation enabled — as the dispatcher always does — a number whose
cleaned form has fewer than 10 or more than 15 digits is rejected
before the provider endpoint is ever called, and whenever the provider
IS called the phone it receives is exactly the cleaned form. -/
theorem C10_phone_normalization :
    (∀ p : String, (clean_phone_number p).data.all Char.isDigit = true) ∧
    (∀ p : String, (p.data.filter Char.isDigit).length = 10 →
      clean_phone_number p = "91" ++ String.mk (p.data.filter Char.isDigit)) ∧
    (∀ (env : SendCallEnv) (p tn : String) (tid : Option String)
      (m : QualityMetrics),
      ((clean_phone_number p).length < 10 ∨ (clean_phone_number p).length > 15) →
      (send_template_message env p tn tid m true).provider_called = none ∧
      (send_template_message env p tn tid m true).result_success = false) ∧
    (∀ (env : SendCallEnv) (p tn : String) (tid : Option String)
      (m : QualityMetrics) (v : Bool) (q : String),
      (send_template_message env p tn tid m v).provider_called = some q →
      q = clean_phone_number p) := by
  refine ⟨?_, ?_, ?_, ?_⟩
  · intro p
    unfold clean_phone_number
    dsimp only
    split
    · rw [String.data_append, List.all_append, filter_digits_all]
      decide
    · exact filter_digits_all _
  · intro p h
    unfold clean_phone_number
    dsimp only
    rw [if_pos (show (String.mk (p.data.filter Char.isDigit)).length = 10 from h)]
  · intro env p tn tid m h
    by_cases hp : p = ""
    · have hval : validate_before_send p tn env.validate_rate m =
          (false, "Phone number is required") := by
        unfold validate_before_send
        rw [if_pos hp]
      constructor <;> simp [send_template_message, hval]
    · have hval : validate_before_send p tn env.validate_rate m =
          (false, "Invalid phone number format") := by
        unfold validate_before_send
        rw [if_neg hp]
        dsimp only
        rw [if_pos h]
      constructor <;> simp [send_template_message, hval]
  · intro env p tn tid m v q h
    unfold send_template_message at h
    cases v with
    | false =>
      rw [if_neg Bool.false_ne_true] at h
      exact send_after_validation_phone env p tid q h
    | true =>
      rw [if_pos rfl] at h
      rcases hv : validate_before_send p tn env.validate_rate m with ⟨b, msg⟩
      rw [hv] at h
      cases b with
      | false => simp at h
      | true => exact send_after_validation_phone env p tid q h

theorem C10_phone_normalization_witness :
    ((clean_phone_number "12345").length < 10 ∨
      (clean_phone_number "12345").length > 15) ∧
    (send_template_message envSendW "12345" "tpl" (some "195735") mZero
      true).provider_called = none ∧
    (send_template_message envSendW "12345" "tpl" (some "195735") mZero
      true).result_success = false ∧
    clean_phone_number "9876543210" =
      "91" ++ String.mk ("9876543210".data.filter Char.isDigit) :=
  ⟨Or.inl (by decide),
   (C10_phone_normalization.2.2.1 envSendW "12345" "tpl" (some "195735") mZero
     (Or.inl (by decide))).1,
   (C10_phone_normalization.2.2.1 envSendW "12345" "tpl" (some "195735") mZero
     (Or.inl (by decide))).2,
   C10_phone_normalization.2.1 "9876543210" (by decide)⟩

end CRM
